import Mathlib

-- Verification development for the ship propulsion-power estimation and
-- design-trade-off engine (calculator.ts / configurations.ts) and the
-- 1960s formula-calibration harness (test-1960s-formulas.ts).
-- Real-number ("number") arithmetic is modelled by ℝ; Math.pow by rpow /
-- monoid powers; Math.round by jsRound (floor of x + 1/2, the JS rule);
-- thrown errors by Except.

noncomputable section

-- ====================================================================
-- Data model: hull types (calculator.ts, hullTypeProperties)
-- ====================================================================

inductive HullType where
  | corvette
  | frigate
  | destroyer
  | cruiser
  | carrier
deriving DecidableEq

structure HullTypeProps where
  displacementRange : ℝ × ℝ
  admiraltyCoefficient : ℝ

def hullTypeProperties : HullType → HullTypeProps
  | .corvette => ⟨(500, 2000), 180⟩
  | .frigate => ⟨(2000, 6000), 210⟩
  | .destroyer => ⟨(6000, 10000), 210⟩
  | .cruiser => ⟨(10000, 20000), 210⟩
  | .carrier => ⟨(20000, 100000), 210⟩

inductive EnginePriority where
  | efficiency
  | power
  | reliability
  | balanced
deriving DecidableEq

-- ====================================================================
-- Configuration registry (configurations.ts)
-- ====================================================================

inductive ConfigurationId where
  | DIESEL
  | GAS_TURBINE
  | STEAM_TURBINE
  | CODOG
  | COGOG
  | CODAG
  | COGAG
  | CODAD
  | COSAG
  | IEP
deriving DecidableEq

structure PropulsionConfig where
  id : ConfigurationId
  name : String
  powerDensity : ℝ
  weightMultiplier : ℝ
  costMultiplier : ℝ
  reliabilityFactor : ℝ
  fuelEfficiencyFactor : ℝ
  complexityFactor : ℝ
  engineCount : ℕ
  yearIntroduced : ℕ
  techTier : ℕ

def CONFIGURATIONS : ConfigurationId → PropulsionConfig
  | .DIESEL =>
    ⟨.DIESEL, "Single Diesel", 60, 0.9, 0.85, 1.3, 0.75, 0.5, 1, 1960, 1⟩
  | .GAS_TURBINE =>
    ⟨.GAS_TURBINE, "Single Gas Turbine", 150, 0.6, 1.4, 0.7, 1.5, 0.85, 1, 1965, 2⟩
  | .STEAM_TURBINE =>
    ⟨.STEAM_TURBINE, "Steam Turbine", 45, 1.2, 0.8, 1.1, 2.0, 0.8, 4, 1940, 0⟩
  | .CODOG =>
    ⟨.CODOG, "Combined Diesel Or Gas", 75, 0.75, 1.05, 1.0, 0.95, 0.75, 2, 1970, 2⟩
  | .COGOG =>
    ⟨.COGOG, "Combined Gas Or Gas", 90, 0.7, 1.2, 0.8, 1.1, 0.8, 2, 1965, 3⟩
  | .CODAG =>
    ⟨.CODAG, "Combined Diesel And Gas", 80, 0.65, 1.25, 0.85, 1.05, 0.9, 3, 1960, 2⟩
  | .COGAG =>
    ⟨.COGAG, "Combined Gas And Gas", 95, 0.6, 1.3, 0.75, 1.2, 0.88, 2, 1962, 3⟩
  | .CODAD =>
    ⟨.CODAD, "Combined Diesel And Diesel", 70, 0.8, 1.1, 1.2, 0.8, 0.7, 2, 1975, 1⟩
  | .COSAG =>
    ⟨.COSAG, "Combined Steam And Gas", 70, 0.9, 1.15, 0.95, 1.3, 0.85, 4, 1962, 2⟩
  | .IEP =>
    ⟨.IEP, "Integrated Electric Propulsion", 85, 0.7, 1.35, 0.95, 0.88, 0.95, 4, 1990, 4⟩

/-- Runtime registry lookup keyed by the raw string id, mirroring
`CONFIGURATIONS[id]` on a JS record (unknown key yields undefined). -/
def lookupConfiguration : String → Option PropulsionConfig
  | "DIESEL" => some (CONFIGURATIONS .DIESEL)
  | "GAS_TURBINE" => some (CONFIGURATIONS .GAS_TURBINE)
  | "STEAM_TURBINE" => some (CONFIGURATIONS .STEAM_TURBINE)
  | "CODOG" => some (CONFIGURATIONS .CODOG)
  | "COGOG" => some (CONFIGURATIONS .COGOG)
  | "CODAG" => some (CONFIGURATIONS .CODAG)
  | "COGAG" => some (CONFIGURATIONS .COGAG)
  | "CODAD" => some (CONFIGURATIONS .CODAD)
  | "COSAG" => some (CONFIGURATIONS .COSAG)
  | "IEP" => some (CONFIGURATIONS .IEP)
  | _ => none

/-- The canonical string key of a configuration id. -/
def configKey : ConfigurationId → String
  | .DIESEL => "DIESEL"
  | .GAS_TURBINE => "GAS_TURBINE"
  | .STEAM_TURBINE => "STEAM_TURBINE"
  | .CODOG => "CODOG"
  | .COGOG => "COGOG"
  | .CODAG => "CODAG"
  | .COGAG => "COGAG"
  | .CODAD => "CODAD"
  | .COSAG => "COSAG"
  | .IEP => "IEP"

-- ====================================================================
-- Errors (the two thrown Error kinds of the core)
-- ====================================================================

inductive CalcError where
  | displacementOutOfRange (displacement : ℝ) (hull : HullType) (lo hi : ℝ)
  | configurationNotFound (id : String)

/-- `getConfiguration` from configurations.ts: throws Unknown configuration
when the id is not a key of the registry. -/
def getConfiguration (id : String) : Except CalcError PropulsionConfig :=
  match lookupConfiguration id with
  | some config => Except.ok config
  | none => Except.error (.configurationNotFound id)

-- ====================================================================
-- Calculation constants (CALCULATION_CONSTANTS in calculator.ts)
-- ====================================================================

def costPerHP : ℝ := 1500
def fuelCostPerTonne : ℝ := 600
def baseFullPowerConsumption : ℝ := 0.00064
def baseMTBF : ℝ := 8000
def fuelLoadPercentage : ℝ := 0.35

-- ====================================================================
-- JS rounding helpers
-- ====================================================================

/-- JavaScript Math.round: floor of x + 1/2 (ties round toward +∞). -/
def jsRound (x : ℝ) : ℝ := ((⌊x + 1 / 2⌋ : ℤ) : ℝ)

/-- `Math.round(x * 10000) / 10000` — rounding to 4 decimal places. -/
def roundTo4 (x : ℝ) : ℝ := jsRound (x * 10000) / 10000

-- ====================================================================
-- Power requirement model (alternateCalculatePowerRequirement)
-- ====================================================================

structure PowerRequirementResult where
  thrustRequired : ℝ
  powerRequired : ℝ

def alternateCalculatePowerRequirement (shipDisplacement desiredSpeed : ℝ)
    (hullType : HullType) : Except CalcError PowerRequirementResult :=
  let hullProps := hullTypeProperties hullType
  if shipDisplacement < hullProps.displacementRange.1 ∨
      hullProps.displacementRange.2 < shipDisplacement then
    Except.error (.displacementOutOfRange shipDisplacement hullType
      hullProps.displacementRange.1 hullProps.displacementRange.2)
  else
    let kWToSHP : ℝ := 0.7457
    let planingEfficiencyFactor : ℝ :=
      if shipDisplacement < 1500 then 0.82
      else if shipDisplacement < 4000 then 0.91
      else 1.0
    let powerKW : ℝ :=
      shipDisplacement ^ ((2 : ℝ) / 3) * desiredSpeed ^ 3 / hullProps.admiraltyCoefficient
    let powerHP : ℝ := powerKW / planingEfficiencyFactor / kWToSHP
    Except.ok ⟨powerHP * 100, powerHP⟩

-- Spec-side formulation (§4.2 of the spec), for the refinement claim C1.

/-- Modelled from the spec: planing-efficiency factor — 0.82 if displacement
is below 1500 t, 0.91 if below 4000 t, otherwise 1.0. -/
def specPlaningFactor (displacement : ℝ) : ℝ :=
  if displacement < 1500 then 0.82
  else if displacement < 4000 then 0.91
  else 1.0

/-- Modelled from the spec: powerHP = (displacement^(2/3) * speed^3 / C)
/ planingFactor / 0.7457. -/
def specPowerHP (displacement speed C planingFactor : ℝ) : ℝ :=
  displacement ^ ((2 : ℝ) / 3) * speed ^ 3 / C / planingFactor / 0.7457

-- ====================================================================
-- Helper calculations (calculator.ts)
-- ====================================================================

structure PriorityAdjustment where
  weight : ℝ
  cost : ℝ
  reliability : ℝ
  fuel : ℝ

def getPriorityAdjustment : EnginePriority → PriorityAdjustment
  | .efficiency => ⟨0.05, 0.1, -0.05, -0.15⟩
  | .power => ⟨-0.1, 0.15, -0.1, 0.1⟩
  | .reliability => ⟨0.08, 0.12, 0.15, -0.05⟩
  | .balanced => ⟨0, 0, 0, 0⟩

def calculateCost (powerRequired configCostMultiplier : ℝ)
    (priority : EnginePriority) : ℝ :=
  let baseCost := powerRequired * costPerHP * configCostMultiplier
  let baseCost := if priority = .power then baseCost * 1.08 else baseCost
  let baseCost := if priority = .efficiency then baseCost * 1.05 else baseCost
  let baseCost := if priority = .reliability then baseCost * 1.1 else baseCost
  jsRound baseCost

def calculateMTBF (configReliabilityFactor : ℝ) (priority : EnginePriority) : ℝ :=
  let mtbf := baseMTBF * configReliabilityFactor
  let mtbf := if priority = .reliability then mtbf * 1.25 else mtbf
  let mtbf := if priority = .power then mtbf * 0.85 else mtbf
  jsRound mtbf

/-- The consumption value of calculateFuelConsumption before its final
rounding to 4 decimal places. -/
def calculateFuelConsumptionRaw (powerRequiredHP configFuelEfficiency
    powerSetting priorityMultiplier : ℝ) : ℝ :=
  let powerKW := powerRequiredHP * 0.7457
  let baseConsumption := powerKW * baseFullPowerConsumption * configFuelEfficiency
  baseConsumption * powerSetting ^ ((1.25 : ℝ)) * priorityMultiplier

def calculateFuelConsumption (powerRequiredHP configFuelEfficiency
    powerSetting priorityMultiplier : ℝ) : ℝ :=
  roundTo4 (calculateFuelConsumptionRaw powerRequiredHP configFuelEfficiency
    powerSetting priorityMultiplier)

/-- `if (desiredCruisingSpeed) return desiredCruisingSpeed` — a supplied
cruising speed is used whenever it is truthy (present and nonzero). -/
def calculateCruisingSpeed (shipDisplacement hullDragCoefficient : ℝ)
    (desiredCruisingSpeed : Option ℝ) : ℝ :=
  match desiredCruisingSpeed with
  | some c =>
    if c ≠ 0 then c
    else if shipDisplacement * hullDragCoefficient < 0.12 then 18 else 15
  | none => if shipDisplacement * hullDragCoefficient < 0.12 then 18 else 15

def calculateRange (fuelConsumptionPerHour shipDisplacement cruisingSpeed : ℝ) : ℝ :=
  if fuelConsumptionPerHour = 0 ∨ cruisingSpeed = 0 then 0
  else
    let fuelCapacity := shipDisplacement * fuelLoadPercentage
    let hoursAtCruise := fuelCapacity / fuelConsumptionPerHour
    let range := hoursAtCruise * cruisingSpeed
    jsRound range

def calculateAcceleration (powerRequired engineWeight : ℝ) : ℝ :=
  let powerToWeight := powerRequired / engineWeight
  let rating := powerToWeight / 50 * 100
  min 100 (jsRound rating)

def baseSignatures : ConfigurationId → ℝ
  | .CODAD => 30
  | .DIESEL => 35
  | .CODOG => 50
  | .CODAG => 65
  | .GAS_TURBINE => 85
  | .COGOG => 90
  | .COGAG => 80
  | .STEAM_TURBINE => 70
  | .COSAG => 75
  | .IEP => 40

def calculateHeatSignature (configId : ConfigurationId) (fuelConsumption : ℝ) : ℝ :=
  let base := baseSignatures configId
  let consumptionFactor := min 20 (fuelConsumption * 10)
  min 100 (base + consumptionFactor)

def calculateComplexity (complexityFactor : ℝ) : ℝ :=
  jsRound (complexityFactor * 100)

-- ====================================================================
-- Main calculation (calculateEngineSystem)
-- ====================================================================

structure EngineDesignInput where
  configType : String
  desiredTopSpeed : ℝ
  enginePriority : EnginePriority
  shipDisplacement : ℝ
  hullDragCoefficient : ℝ
  desiredCruisingSpeed : Option ℝ
  year : Option ℕ
  hullType : HullType

structure EngineSystemOutput where
  configuration : String
  totalEngineWeight : ℝ
  totalEngineCost : ℝ
  engineVolume : ℝ
  maxPower : ℝ
  maxSpeed : ℝ
  cruisingSpeed : ℝ
  maxRange : ℝ
  mtbf : ℝ
  reliabilityScore : ℝ
  fuelConsumptionAtFullPower : ℝ
  fuelConsumptionAtCruise : ℝ
  operatingCostPerHour : ℝ
  accelerationRating : ℝ
  heatSignature : ℝ
  complexityRating : ℝ

/-- The pure tail of calculateEngineSystem: everything after the two
fallible lookups, taking the configuration and the base power requirement
returned by alternateCalculatePowerRequirement. -/
def engineSystemOutputOf (input : EngineDesignInput) (config : PropulsionConfig)
    (basePowerRequired : ℝ) : EngineSystemOutput :=
  let priorityAdjustment := getPriorityAdjustment input.enginePriority
  let powerRequired :=
    if input.enginePriority = .power then basePowerRequired * 1.05 else basePowerRequired
  let powerRequired :=
    if input.enginePriority = .efficiency then powerRequired * 0.98 else powerRequired
  let baseEngineWeight := input.shipDisplacement * 0.14 + powerRequired * 0.003
  let totalEngineWeight :=
    baseEngineWeight * config.weightMultiplier * (1 + priorityAdjustment.weight)
  let totalEngineCost := calculateCost powerRequired config.costMultiplier input.enginePriority
  let mtbf := calculateMTBF config.reliabilityFactor input.enginePriority
  let cruisingSpeed := calculateCruisingSpeed input.shipDisplacement
    input.hullDragCoefficient input.desiredCruisingSpeed
  let cruisePowerRequired :=
    match input.desiredCruisingSpeed with
    | some c =>
      if 0 < c then powerRequired * (cruisingSpeed / input.desiredTopSpeed) ^ 3
      else powerRequired
    | none => powerRequired
  let fuelEfficiencyMultiplier :=
    if input.enginePriority = .efficiency then (0.85 : ℝ)
    else if input.enginePriority = .power then 1.1 else 1.0
  let fuelConsumptionFull := calculateFuelConsumption powerRequired
    config.fuelEfficiencyFactor 1.0 fuelEfficiencyMultiplier
  let fuelConsumptionCruise :=
    match input.desiredCruisingSpeed with
    | some c =>
      if 0 < c then
        calculateFuelConsumption cruisePowerRequired config.fuelEfficiencyFactor 1.0
          fuelEfficiencyMultiplier
      else
        calculateFuelConsumption powerRequired config.fuelEfficiencyFactor 0.65
          fuelEfficiencyMultiplier
    | none =>
      calculateFuelConsumption powerRequired config.fuelEfficiencyFactor 0.65
        fuelEfficiencyMultiplier
  let maxRange := calculateRange fuelConsumptionCruise input.shipDisplacement cruisingSpeed
  let accelerationRating := calculateAcceleration powerRequired totalEngineWeight
  let heatSignature := calculateHeatSignature config.id fuelConsumptionFull
  let complexityRating := calculateComplexity config.complexityFactor
  { configuration := input.configType
    totalEngineWeight := totalEngineWeight
    totalEngineCost := totalEngineCost
    engineVolume := totalEngineWeight * 2.5
    maxPower := powerRequired
    maxSpeed := input.desiredTopSpeed
    cruisingSpeed := cruisingSpeed
    maxRange := maxRange
    mtbf := mtbf
    reliabilityScore := mtbf / baseMTBF * 100
    fuelConsumptionAtFullPower := fuelConsumptionFull
    fuelConsumptionAtCruise := fuelConsumptionCruise
    operatingCostPerHour := fuelConsumptionFull * fuelCostPerTonne
    accelerationRating := accelerationRating
    heatSignature := heatSignature
    complexityRating := complexityRating }

def calculateEngineSystem (input : EngineDesignInput) :
    Except CalcError EngineSystemOutput :=
  match getConfiguration input.configType with
  | Except.error e => Except.error e
  | Except.ok config =>
    match alternateCalculatePowerRequirement input.shipDisplacement
        input.desiredTopSpeed input.hullType with
    | Except.error e => Except.error e
    | Except.ok pr => Except.ok (engineSystemOutputOf input config pr.powerRequired)

-- ====================================================================
-- Helper lemmas: JS rounding
-- ====================================================================

lemma jsRound_eq (x : ℝ) (n : ℤ) (h1 : (n : ℝ) ≤ x + 1 / 2) (h2 : x + 1 / 2 < n + 1) :
    jsRound x = n := by
  unfold jsRound
  have : ⌊x + 1 / 2⌋ = n := Int.floor_eq_iff.mpr ⟨h1, by push_cast; linarith⟩
  rw [this]

lemma jsRound_le (x : ℝ) : jsRound x ≤ x + 1 / 2 := Int.floor_le _

lemma lt_jsRound (x : ℝ) : x - 1 / 2 < jsRound x := by
  have h := Int.lt_floor_add_one (x + 1 / 2)
  unfold jsRound
  push_cast
  linarith

lemma jsRound_mono {x y : ℝ} (h : x ≤ y) : jsRound x ≤ jsRound y := by
  unfold jsRound
  exact_mod_cast Int.floor_mono (by linarith)

lemma roundTo4_mono {x y : ℝ} (h : x ≤ y) : roundTo4 x ≤ roundTo4 y := by
  unfold roundTo4
  have h2 := jsRound_mono (mul_le_mul_of_nonneg_right h (by norm_num : (0:ℝ) ≤ 10000))
  linarith

lemma roundTo4_le (x : ℝ) : roundTo4 x ≤ x + 1 / 20000 := by
  unfold roundTo4
  rw [div_le_iff (by norm_num : (0:ℝ) < 10000)]
  have h := jsRound_le (x * 10000)
  linarith

lemma lt_roundTo4 (x : ℝ) : x - 1 / 20000 < roundTo4 x := by
  unfold roundTo4
  rw [lt_div_iff (by norm_num : (0:ℝ) < 10000)]
  have h := lt_jsRound (x * 10000)
  linarith

-- ====================================================================
-- Helper lemmas: the 2/3 real power
-- ====================================================================

lemma rpow23_cube (x : ℝ) (hx : 0 ≤ x) : (x ^ ((2 : ℝ) / 3)) ^ 3 = x ^ 2 := by
  rw [← Real.rpow_natCast (x ^ ((2 : ℝ) / 3)) 3, ← Real.rpow_mul hx]
  have h : (2 : ℝ) / 3 * (3 : ℕ) = 2 := by norm_num
  rw [h, Real.rpow_two]

lemma rpow23_lt_of (x b : ℝ) (hx : 0 ≤ x) (hb : 0 ≤ b) (h : x ^ 2 < b ^ 3) :
    x ^ ((2 : ℝ) / 3) < b := by
  by_contra hc
  push_neg at hc
  have h3 := pow_le_pow_left hb hc 3
  rw [rpow23_cube x hx] at h3
  linarith

lemma lt_rpow23_of (x b : ℝ) (hx : 0 ≤ x) (hb : 0 ≤ b) (h : b ^ 3 < x ^ 2) :
    b < x ^ ((2 : ℝ) / 3) := by
  by_contra hc
  push_neg at hc
  have h3 := pow_le_pow_left (Real.rpow_nonneg hx _) hc 3
  rw [rpow23_cube x hx] at h3
  linarith

-- ====================================================================
-- Helper lemmas: positivity of static table entries
-- ====================================================================

lemma specPlaningFactor_pos (d : ℝ) : 0 < specPlaningFactor d := by
  unfold specPlaningFactor
  split_ifs <;> norm_num

lemma specPowerHP_nonneg {d v C pf : ℝ} (hd : 0 ≤ d) (hv : 0 ≤ v) (hC : 0 ≤ C)
    (hpf : 0 ≤ pf) : 0 ≤ specPowerHP d v C pf := by
  unfold specPowerHP
  have h1 : 0 ≤ d ^ ((2 : ℝ) / 3) := Real.rpow_nonneg hd _
  have h2 : 0 ≤ v ^ 3 := pow_nonneg hv 3
  have h3 : 0 ≤ d ^ ((2 : ℝ) / 3) * v ^ 3 := mul_nonneg h1 h2
  exact div_nonneg (div_nonneg (div_nonneg h3 hC) hpf) (by norm_num)

lemma specPowerHP_pos {d v C pf : ℝ} (hd : 0 < d) (hv : 0 < v) (hC : 0 < C)
    (hpf : 0 < pf) : 0 < specPowerHP d v C pf := by
  unfold specPowerHP
  have h1 : 0 < d ^ ((2 : ℝ) / 3) := Real.rpow_pos_of_pos hd _
  have h2 : 0 < v ^ 3 := pow_pos hv 3
  exact div_pos (div_pos (div_pos (mul_pos h1 h2) hC) hpf) (by norm_num)

lemma hull_dispMin_pos (h : HullType) :
    0 < (hullTypeProperties h).displacementRange.1 := by
  cases h <;> norm_num [hullTypeProperties]

lemma hull_admiralty_pos (h : HullType) :
    0 < (hullTypeProperties h).admiraltyCoefficient := by
  cases h <;> norm_num [hullTypeProperties]

lemma weightMultiplier_pos (cid : ConfigurationId) :
    0 < (CONFIGURATIONS cid).weightMultiplier := by
  cases cid <;> norm_num [CONFIGURATIONS]

lemma fuelEfficiencyFactor_pos (cid : ConfigurationId) :
    0 < (CONFIGURATIONS cid).fuelEfficiencyFactor := by
  cases cid <;> norm_num [CONFIGURATIONS]

-- ====================================================================
-- Helper lemmas: unfolding the fallible pipeline
-- ====================================================================

lemma alternateCalc_ok (d v : ℝ) (h : HullType)
    (h1 : (hullTypeProperties h).displacementRange.1 ≤ d)
    (h2 : d ≤ (hullTypeProperties h).displacementRange.2) :
    alternateCalculatePowerRequirement d v h =
      Except.ok
        ⟨specPowerHP d v (hullTypeProperties h).admiraltyCoefficient (specPlaningFactor d) * 100,
          specPowerHP d v (hullTypeProperties h).admiraltyCoefficient (specPlaningFactor d)⟩ := by
  have hcond : ¬(d < (hullTypeProperties h).displacementRange.1 ∨
      (hullTypeProperties h).displacementRange.2 < d) := by
    push_neg
    exact ⟨h1, h2⟩
  unfold alternateCalculatePowerRequirement
  rw [if_neg hcond]
  rfl

lemma alternateCalc_err (d v : ℝ) (h : HullType)
    (hcond : d < (hullTypeProperties h).displacementRange.1 ∨
      (hullTypeProperties h).displacementRange.2 < d) :
    alternateCalculatePowerRequirement d v h =
      Except.error (.displacementOutOfRange d h
        (hullTypeProperties h).displacementRange.1
        (hullTypeProperties h).displacementRange.2) := by
  unfold alternateCalculatePowerRequirement
  rw [if_pos hcond]

lemma calculateEngineSystem_ok (input : EngineDesignInput) (cfg : PropulsionConfig)
    (hc : lookupConfiguration input.configType = some cfg)
    (h1 : (hullTypeProperties input.hullType).displacementRange.1 ≤ input.shipDisplacement)
    (h2 : input.shipDisplacement ≤ (hullTypeProperties input.hullType).displacementRange.2) :
    calculateEngineSystem input =
      Except.ok (engineSystemOutputOf input cfg
        (specPowerHP input.shipDisplacement input.desiredTopSpeed
          (hullTypeProperties input.hullType).admiraltyCoefficient
          (specPlaningFactor input.shipDisplacement))) := by
  unfold calculateEngineSystem getConfiguration
  rw [hc, alternateCalc_ok _ _ _ h1 h2]

lemma calculateEngineSystem_err_config (input : EngineDesignInput)
    (hc : lookupConfiguration input.configType = none) :
    calculateEngineSystem input =
      Except.error (.configurationNotFound input.configType) := by
  unfold calculateEngineSystem getConfiguration
  rw [hc]

lemma lookup_configKey (cid : ConfigurationId) :
    lookupConfiguration (configKey cid) = some (CONFIGURATIONS cid) := by
  cases cid <;> rfl

-- ====================================================================
-- Helper abbreviations for the priority-dependent factors, and
-- projection lemmas for the output record
-- ====================================================================

/-- The factor applied to the base power requirement by enginePriority
(power: 1.05, efficiency: 0.98, otherwise 1). -/
def priorityPowerFactor : EnginePriority → ℝ
  | .power => 1.05
  | .efficiency => 0.98
  | _ => 1

/-- The fuelEfficiencyMultiplier selected by enginePriority. -/
def priorityFuelMultiplier : EnginePriority → ℝ
  | .efficiency => 0.85
  | .power => 1.1
  | _ => 1.0

lemma priorityPowerFactor_pos (p : EnginePriority) : 0 < priorityPowerFactor p := by
  cases p <;> norm_num [priorityPowerFactor]

lemma priorityFuelMultiplier_pos (p : EnginePriority) : 0 < priorityFuelMultiplier p := by
  cases p <;> norm_num [priorityFuelMultiplier]

lemma priorityWeightFactor_pos (p : EnginePriority) :
    0 < 1 + (getPriorityAdjustment p).weight := by
  cases p <;> norm_num [getPriorityAdjustment]

lemma out_maxPower (ct : String) (v : ℝ) (prio : EnginePriority) (d drag : ℝ)
    (copt : Option ℝ) (yr : Option ℕ) (h : HullType) (cfg : PropulsionConfig) (p : ℝ) :
    (engineSystemOutputOf ⟨ct, v, prio, d, drag, copt, yr, h⟩ cfg p).maxPower =
      p * priorityPowerFactor prio := by
  cases prio <;> simp [engineSystemOutputOf, priorityPowerFactor]

lemma out_maxSpeed (ct : String) (v : ℝ) (prio : EnginePriority) (d drag : ℝ)
    (copt : Option ℝ) (yr : Option ℕ) (h : HullType) (cfg : PropulsionConfig) (p : ℝ) :
    (engineSystemOutputOf ⟨ct, v, prio, d, drag, copt, yr, h⟩ cfg p).maxSpeed = v := rfl

lemma out_cruisingSpeed (ct : String) (v : ℝ) (prio : EnginePriority) (d drag : ℝ)
    (copt : Option ℝ) (yr : Option ℕ) (h : HullType) (cfg : PropulsionConfig) (p : ℝ) :
    (engineSystemOutputOf ⟨ct, v, prio, d, drag, copt, yr, h⟩ cfg p).cruisingSpeed =
      calculateCruisingSpeed d drag copt := rfl

lemma out_mtbf (ct : String) (v : ℝ) (prio : EnginePriority) (d drag : ℝ)
    (copt : Option ℝ) (yr : Option ℕ) (h : HullType) (cfg : PropulsionConfig) (p : ℝ) :
    (engineSystemOutputOf ⟨ct, v, prio, d, drag, copt, yr, h⟩ cfg p).mtbf =
      calculateMTBF cfg.reliabilityFactor prio := rfl

lemma out_totalEngineWeight (ct : String) (v : ℝ) (prio : EnginePriority) (d drag : ℝ)
    (copt : Option ℝ) (yr : Option ℕ) (h : HullType) (cfg : PropulsionConfig) (p : ℝ) :
    (engineSystemOutputOf ⟨ct, v, prio, d, drag, copt, yr, h⟩ cfg p).totalEngineWeight =
      (d * 0.14 + p * priorityPowerFactor prio * 0.003) * cfg.weightMultiplier *
        (1 + (getPriorityAdjustment prio).weight) := by
  cases prio <;> simp [engineSystemOutputOf, priorityPowerFactor]

lemma out_fuelFull (ct : String) (v : ℝ) (prio : EnginePriority) (d drag : ℝ)
    (copt : Option ℝ) (yr : Option ℕ) (h : HullType) (cfg : PropulsionConfig) (p : ℝ) :
    (engineSystemOutputOf ⟨ct, v, prio, d, drag, copt, yr, h⟩ cfg
        p).fuelConsumptionAtFullPower =
      calculateFuelConsumption (p * priorityPowerFactor prio) cfg.fuelEfficiencyFactor 1.0
        (priorityFuelMultiplier prio) := by
  cases prio <;> simp [engineSystemOutputOf, priorityPowerFactor, priorityFuelMultiplier]

lemma out_fuelCruise_custom (ct : String) (v : ℝ) (prio : EnginePriority) (d drag c : ℝ)
    (yr : Option ℕ) (h : HullType) (cfg : PropulsionConfig) (p : ℝ) (hc : 0 < c) :
    (engineSystemOutputOf ⟨ct, v, prio, d, drag, some c, yr, h⟩ cfg
        p).fuelConsumptionAtCruise =
      calculateFuelConsumption (p * priorityPowerFactor prio * (c / v) ^ 3)
        cfg.fuelEfficiencyFactor 1.0 (priorityFuelMultiplier prio) := by
  cases prio <;>
    simp [engineSystemOutputOf, priorityPowerFactor, priorityFuelMultiplier,
      calculateCruisingSpeed, hc, hc.ne']

lemma out_fuelCruise_default (ct : String) (v : ℝ) (prio : EnginePriority) (d drag : ℝ)
    (yr : Option ℕ) (h : HullType) (cfg : PropulsionConfig) (p : ℝ) :
    (engineSystemOutputOf ⟨ct, v, prio, d, drag, none, yr, h⟩ cfg
        p).fuelConsumptionAtCruise =
      calculateFuelConsumption (p * priorityPowerFactor prio) cfg.fuelEfficiencyFactor 0.65
        (priorityFuelMultiplier prio) := by
  cases prio <;> simp [engineSystemOutputOf, priorityPowerFactor, priorityFuelMultiplier]

-- ====================================================================
-- Claims C1, C3, C4, C8
-- ====================================================================

/-- Claim C1: for every input whose shipDisplacement lies within the hull
type declared [min,max] range, alternateCalculatePowerRequirement returns
powerHP = (displacement^(2/3) * speed^3 / C) / planingFactor / 0.7457,
where C is the hull type admiralty coefficient and planingFactor is 0.82
if displacement < 1500, 0.91 if displacement < 4000, and 1.0 otherwise. -/
theorem C1_power_requirement_formula (d v : ℝ) (h : HullType)
    (h1 : (hullTypeProperties h).displacementRange.1 ≤ d)
    (h2 : d ≤ (hullTypeProperties h).displacementRange.2) :
    ∃ r : PowerRequirementResult,
      alternateCalculatePowerRequirement d v h = Except.ok r ∧
        r.powerRequired =
          specPowerHP d v (hullTypeProperties h).admiraltyCoefficient
            (specPlaningFactor d) :=
  ⟨_, alternateCalc_ok d v h h1 h2, rfl⟩

/-- Witness for C1 at displacement 5000 t, frigate, 30 kn. -/
theorem C1_power_requirement_formula_witness :
    (hullTypeProperties HullType.frigate).displacementRange.1 ≤ 5000 ∧
      (5000 : ℝ) ≤ (hullTypeProperties HullType.frigate).displacementRange.2 ∧
      ∃ r : PowerRequirementResult,
        alternateCalculatePowerRequirement 5000 30 .frigate = Except.ok r ∧
          r.powerRequired =
            specPowerHP 5000 30 (hullTypeProperties HullType.frigate).admiraltyCoefficient
              (specPlaningFactor 5000) := by
  refine ⟨by norm_num [hullTypeProperties], by norm_num [hullTypeProperties], ?_⟩
  exact C1_power_requirement_formula 5000 30 .frigate
    (by norm_num [hullTypeProperties]) (by norm_num [hullTypeProperties])

/-- Claim C3: a displacement exactly at the hull type's declared minimum or
maximum is accepted (and computed by the un-clamped formula at that very
displacement), while any displacement strictly below the minimum or strictly
above the maximum yields the DisplacementOutOfRange error carrying the hull
type and both bounds; no clamping or default substitution occurs. -/
theorem C3_displacement_boundary_validation (h : HullType) (d v : ℝ) :
    ((hullTypeProperties h).displacementRange.1 ≤ d →
      d ≤ (hullTypeProperties h).displacementRange.2 →
      ∃ r : PowerRequirementResult,
        alternateCalculatePowerRequirement d v h = Except.ok r ∧
          r.powerRequired =
            specPowerHP d v (hullTypeProperties h).admiraltyCoefficient
              (specPlaningFactor d)) ∧
    (d < (hullTypeProperties h).displacementRange.1 ∨
        (hullTypeProperties h).displacementRange.2 < d →
      alternateCalculatePowerRequirement d v h =
        Except.error (.displacementOutOfRange d h
          (hullTypeProperties h).displacementRange.1
          (hullTypeProperties h).displacementRange.2)) := by
  constructor
  · intro h1 h2
    exact ⟨_, alternateCalc_ok d v h h1 h2, rfl⟩
  · intro hcond
    exact alternateCalc_err d v h hcond

/-- Witness for C3: the frigate boundaries 2000 t and 6000 t are accepted,
and 1999 t raises the out-of-range error naming the bounds. -/
theorem C3_displacement_boundary_validation_witness :
    (∃ r : PowerRequirementResult,
      alternateCalculatePowerRequirement 2000 30 .frigate = Except.ok r ∧
        r.powerRequired =
          specPowerHP 2000 30 (hullTypeProperties HullType.frigate).admiraltyCoefficient
            (specPlaningFactor 2000)) ∧
    (∃ r : PowerRequirementResult,
      alternateCalculatePowerRequirement 6000 30 .frigate = Except.ok r ∧
        r.powerRequired =
          specPowerHP 6000 30 (hullTypeProperties HullType.frigate).admiraltyCoefficient
            (specPlaningFactor 6000)) ∧
    alternateCalculatePowerRequirement 1999 30 .frigate =
      Except.error (.displacementOutOfRange 1999 .frigate
        (hullTypeProperties HullType.frigate).displacementRange.1
        (hullTypeProperties HullType.frigate).displacementRange.2) := by
  refine ⟨?_, ?_, ?_⟩
  · exact (C3_displacement_boundary_validation .frigate 2000 30).1
      (by norm_num [hullTypeProperties]) (by norm_num [hullTypeProperties])
  · exact (C3_displacement_boundary_validation .frigate 6000 30).1
      (by norm_num [hullTypeProperties]) (by norm_num [hullTypeProperties])
  · exact (C3_displacement_boundary_validation .frigate 1999 30).2
      (Or.inl (by norm_num [hullTypeProperties]))

/-- Claim C4: an input whose configuration id is not a key of the registry
makes calculateEngineSystem fail with ConfigurationNotFound before any power
computation (the error is produced whatever the other fields are, so no
partial output exists), while every recognized id resolves to its
configuration. -/
theorem C4_configuration_lookup :
    (∀ input : EngineDesignInput, lookupConfiguration input.configType = none →
      calculateEngineSystem input =
        Except.error (.configurationNotFound input.configType)) ∧
    (∀ cid : ConfigurationId,
      getConfiguration (configKey cid) = Except.ok (CONFIGURATIONS cid)) := by
  constructor
  · intro input hc
    exact calculateEngineSystem_err_config input hc
  · intro cid
    unfold getConfiguration
    rw [lookup_configKey]

/-- Witness for C4: the unknown id WARP_DRIVE fails with
ConfigurationNotFound even though the displacement (100 t) is also outside
the frigate range — the configuration error comes first. -/
theorem C4_configuration_lookup_witness :
    lookupConfiguration "WARP_DRIVE" = none ∧
      calculateEngineSystem ⟨"WARP_DRIVE", 30, .balanced, 100, 0.1, none, none, .frigate⟩ =
        Except.error (.configurationNotFound "WARP_DRIVE") :=
  ⟨rfl, C4_configuration_lookup.1
    ⟨"WARP_DRIVE", 30, .balanced, 100, 0.1, none, none, .frigate⟩ rfl⟩

/-- Claim C8: calculateRange returns 0 whenever the cruise fuel consumption
or the cruising speed is exactly 0, and otherwise computes
round(displacement * 0.35 / fuelConsumption * cruisingSpeed); the output
maxRange field is wired to exactly this function. -/
theorem C8_range_zero_guard (f d c : ℝ) :
    (f = 0 ∨ c = 0 → calculateRange f d c = 0) ∧
    (f ≠ 0 → c ≠ 0 → calculateRange f d c = jsRound (d * 0.35 / f * c)) ∧
    (∀ (ct : String) (v : ℝ) (prio : EnginePriority) (d2 drag : ℝ) (copt : Option ℝ)
        (yr : Option ℕ) (h : HullType) (cfg : PropulsionConfig) (p : ℝ),
      (engineSystemOutputOf ⟨ct, v, prio, d2, drag, copt, yr, h⟩ cfg p).maxRange =
        calculateRange
          ((engineSystemOutputOf ⟨ct, v, prio, d2, drag, copt, yr, h⟩ cfg
            p).fuelConsumptionAtCruise)
          d2 (calculateCruisingSpeed d2 drag copt)) := by
  refine ⟨?_, ?_, ?_⟩
  · intro hz
    unfold calculateRange
    rw [if_pos hz]
  · intro hf hc
    unfold calculateRange fuelLoadPercentage
    rw [if_neg (by push_neg; exact ⟨hf, hc⟩)]
  · intro ct v prio d2 drag copt yr h cfg p
    rfl

/-- Witness for C8: consumption 2 t/h, displacement 1000 t, cruise 10 kn
give range round(1000 * 0.35 / 2 * 10) = 1750 nmi. -/
theorem C8_range_zero_guard_witness :
    (2 : ℝ) ≠ 0 ∧ (10 : ℝ) ≠ 0 ∧ calculateRange 2 1000 10 = 1750 := by
  refine ⟨by norm_num, by norm_num, ?_⟩
  rw [(C8_range_zero_guard 2 1000 10).2.1 (by norm_num) (by norm_num),
    jsRound_eq _ 1750 (by norm_num) (by norm_num)]
  norm_num

-- ====================================================================
-- Claim C2: monotonicity in displacement
-- ====================================================================

lemma specPowerHP_mono {d1 d2 v C pf : ℝ} (hd1 : 0 ≤ d1) (h12 : d1 ≤ d2) (hv : 0 ≤ v)
    (hC : 0 < C) (hpf : 0 < pf) :
    specPowerHP d1 v C pf ≤ specPowerHP d2 v C pf := by
  unfold specPowerHP
  have hr : d1 ^ ((2 : ℝ) / 3) ≤ d2 ^ ((2 : ℝ) / 3) :=
    Real.rpow_le_rpow hd1 h12 (by norm_num)
  have key : d1 ^ ((2 : ℝ) / 3) * v ^ 3 ≤ d2 ^ ((2 : ℝ) / 3) * v ^ 3 :=
    mul_le_mul_of_nonneg_right hr (pow_nonneg hv 3)
  exact (div_le_div_right (by norm_num : (0 : ℝ) < 0.7457)).mpr
    ((div_le_div_right hpf).mpr ((div_le_div_right hC).mpr key))

/-- Claim C2 (amended): for a fixed configuration, hull type, priority and
nonnegative speed, and displacements d1 ≤ d2 both within the hull type's
valid range AND in the same planing-efficiency band (the factor 0.82 / 0.91
/ 1.0 agrees at d1 and d2), the output at d2 has maxPower ≥ and
totalEngineWeight ≥ the output at d1. (Across a planing band boundary the
original claim fails: see the counterexample.) -/
theorem C2_monotone_in_displacement_amended (cid : ConfigurationId)
    (prio : EnginePriority) (h : HullType) (v drag : ℝ) (copt : Option ℝ)
    (yr : Option ℕ) (d1 d2 : ℝ) (hv : 0 ≤ v)
    (h1lo : (hullTypeProperties h).displacementRange.1 ≤ d1)
    (h12 : d1 ≤ d2)
    (h2hi : d2 ≤ (hullTypeProperties h).displacementRange.2)
    (hband : specPlaningFactor d1 = specPlaningFactor d2) :
    ∃ o1 o2,
      calculateEngineSystem ⟨configKey cid, v, prio, d1, drag, copt, yr, h⟩ =
        Except.ok o1 ∧
      calculateEngineSystem ⟨configKey cid, v, prio, d2, drag, copt, yr, h⟩ =
        Except.ok o2 ∧
      o1.maxPower ≤ o2.maxPower ∧ o1.totalEngineWeight ≤ o2.totalEngineWeight := by
  have h1hi : d1 ≤ (hullTypeProperties h).displacementRange.2 := le_trans h12 h2hi
  have h2lo : (hullTypeProperties h).displacementRange.1 ≤ d2 := le_trans h1lo h12
  have hd1 : 0 < d1 := lt_of_lt_of_le (hull_dispMin_pos h) h1lo
  have hP : specPowerHP d1 v (hullTypeProperties h).admiraltyCoefficient
      (specPlaningFactor d1) ≤
      specPowerHP d2 v (hullTypeProperties h).admiraltyCoefficient
        (specPlaningFactor d2) := by
    rw [← hband]
    exact specPowerHP_mono hd1.le h12 hv (hull_admiralty_pos h) (specPlaningFactor_pos d1)
  refine ⟨_, _,
    calculateEngineSystem_ok _ (CONFIGURATIONS cid) (lookup_configKey cid) h1lo h1hi,
    calculateEngineSystem_ok _ (CONFIGURATIONS cid) (lookup_configKey cid) h2lo h2hi,
    ?_, ?_⟩
  · rw [out_maxPower, out_maxPower]
    exact mul_le_mul_of_nonneg_right hP (priorityPowerFactor_pos prio).le
  · rw [out_totalEngineWeight, out_totalEngineWeight]
    apply mul_le_mul_of_nonneg_right _ (priorityWeightFactor_pos prio).le
    apply mul_le_mul_of_nonneg_right _ (weightMultiplier_pos cid).le
    have hppf := priorityPowerFactor_pos prio
    have t1 : d1 * 0.14 ≤ d2 * 0.14 :=
      mul_le_mul_of_nonneg_right h12 (by norm_num)
    have t2 : specPowerHP d1 v (hullTypeProperties h).admiraltyCoefficient
        (specPlaningFactor d1) * priorityPowerFactor prio * 0.003 ≤
        specPowerHP d2 v (hullTypeProperties h).admiraltyCoefficient
          (specPlaningFactor d2) * priorityPowerFactor prio * 0.003 := by
      apply mul_le_mul_of_nonneg_right _ (by norm_num : (0:ℝ) ≤ 0.003)
      exact mul_le_mul_of_nonneg_right hP hppf.le
    linarith

/-- Witness for the amended C2: DIESEL frigate at 30 kn, displacements
4000 t ≤ 5000 t (both in the large-hull planing band). -/
theorem C2_monotone_in_displacement_amended_witness :
    ∃ o1 o2,
      calculateEngineSystem ⟨configKey .DIESEL, 30, .balanced, 4000, 0.1, none, none,
        .frigate⟩ = Except.ok o1 ∧
      calculateEngineSystem ⟨configKey .DIESEL, 30, .balanced, 5000, 0.1, none, none,
        .frigate⟩ = Except.ok o2 ∧
      o1.maxPower ≤ o2.maxPower ∧ o1.totalEngineWeight ≤ o2.totalEngineWeight := by
  refine C2_monotone_in_displacement_amended .DIESEL .balanced .frigate 30 0.1 none none
    4000 5000 (by norm_num) (by norm_num [hullTypeProperties]) (by norm_num)
    (by norm_num [hullTypeProperties]) ?_
  unfold specPlaningFactor
  norm_num

/-- Counterexample to C2 as stated: for DIESEL, corvette hull, balanced
priority, speed 50 kn, the displacements 1400 t < 1500 t are both within the
corvette range [500, 2000], yet the larger ship needs LESS power and LESS
engine weight, because the planing-efficiency divisor jumps from 0.82 to
0.91 at 1500 t. -/
theorem C2_monotone_in_displacement_counterexample :
    (500 : ℝ) ≤ 1400 ∧ (1400 : ℝ) < 1500 ∧ (1500 : ℝ) ≤ 2000 ∧
    ∃ o1 o2,
      calculateEngineSystem ⟨"DIESEL", 50, .balanced, 1400, 0.1, none, none, .corvette⟩ =
        Except.ok o1 ∧
      calculateEngineSystem ⟨"DIESEL", 50, .balanced, 1500, 0.1, none, none, .corvette⟩ =
        Except.ok o2 ∧
      o2.maxPower < o1.maxPower ∧ o2.totalEngineWeight < o1.totalEngineWeight := by
  have hx : (125.1 : ℝ) < (1400 : ℝ) ^ ((2 : ℝ) / 3) :=
    lt_rpow23_of _ _ (by norm_num) (by norm_num) (by norm_num)
  have hy : (1500 : ℝ) ^ ((2 : ℝ) / 3) < 131.04 :=
    rpow23_lt_of _ _ (by norm_num) (by norm_num) (by norm_num)
  have e1 : specPlaningFactor 1400 = 0.82 := by unfold specPlaningFactor; norm_num
  have e2 : specPlaningFactor 1500 = 0.91 := by unfold specPlaningFactor; norm_num
  refine ⟨by norm_num, by norm_num, by norm_num, _, _,
    calculateEngineSystem_ok _ (CONFIGURATIONS .DIESEL) (lookup_configKey .DIESEL)
      (by norm_num [hullTypeProperties]) (by norm_num [hullTypeProperties]),
    calculateEngineSystem_ok _ (CONFIGURATIONS .DIESEL) (lookup_configKey .DIESEL)
      (by norm_num [hullTypeProperties]) (by norm_num [hullTypeProperties]),
    ?_, ?_⟩
  · rw [out_maxPower, out_maxPower, e1, e2]
    have e3 : (hullTypeProperties HullType.corvette).admiraltyCoefficient = 180 := rfl
    have e4 : priorityPowerFactor .balanced = 1 := rfl
    rw [e3, e4, mul_one, mul_one]
    unfold specPowerHP
    dsimp only
    ring_nf
    ring_nf at hx hy
    linarith
  · rw [out_totalEngineWeight, out_totalEngineWeight, e1, e2]
    have e3 : (hullTypeProperties HullType.corvette).admiraltyCoefficient = 180 := rfl
    have e4 : priorityPowerFactor .balanced = 1 := rfl
    have e5 : (getPriorityAdjustment .balanced).weight = 0 := rfl
    have e6 : (CONFIGURATIONS .DIESEL).weightMultiplier = 0.9 := rfl
    rw [e3, e4, e5, e6, mul_one, mul_one]
    unfold specPowerHP
    dsimp only
    ring_nf
    ring_nf at hx hy
    linarith

-- ====================================================================
-- Claim C5: priority effects
-- ====================================================================

lemma jsRound_lt_jsRound {x y : ℝ} (h : x + 1 ≤ y) : jsRound x < jsRound y := by
  have h1 := jsRound_le x
  have h2 := lt_jsRound y
  linarith

lemma mtbf_balanced_lt_reliability (cid : ConfigurationId) :
    calculateMTBF (CONFIGURATIONS cid).reliabilityFactor .balanced <
      calculateMTBF (CONFIGURATIONS cid).reliabilityFactor .reliability := by
  have hrf : (0.7 : ℝ) ≤ (CONFIGURATIONS cid).reliabilityFactor := by
    cases cid <;> norm_num [CONFIGURATIONS]
  unfold calculateMTBF baseMTBF
  simp only [reduceCtorEq, if_false, if_true, reduceIte]
  exact jsRound_lt_jsRound (by nlinarith)

/-- powerSetting 1.0 contributes no part-power curve: 1.0 ^ 1.25 = 1. -/
lemma rpow_one_setting : ((1.0 : ℝ)) ^ ((1.25 : ℝ)) = 1 := by
  norm_num [Real.one_rpow]

lemma roundTo4_eq_num {x : ℝ} (n : ℤ) (h1 : (n : ℝ) ≤ x * 10000 + 1 / 2)
    (h2 : x * 10000 + 1 / 2 < n + 1) : roundTo4 x = n / 10000 := by
  unfold roundTo4
  rw [jsRound_eq (x * 10000) n h1 h2]

/-- Claim C5 (amended): holding all other fields of a valid input equal,
switching enginePriority from balanced to power strictly increases maxPower,
switching to reliability strictly increases mtbf, and switching to
efficiency never increases fuelConsumptionAtFullPower (the underlying
consumption strictly decreases, but the 4-decimal rounding of the output
can collapse the strict inequality to equality: see the counterexample). -/
theorem C5_priority_effects_amended (cid : ConfigurationId) (h : HullType)
    (v drag : ℝ) (copt : Option ℝ) (yr : Option ℕ) (d : ℝ)
    (hlo : (hullTypeProperties h).displacementRange.1 ≤ d)
    (hhi : d ≤ (hullTypeProperties h).displacementRange.2)
    (hv : 0 < v) :
    ∃ ob op orl oe,
      calculateEngineSystem ⟨configKey cid, v, .balanced, d, drag, copt, yr, h⟩ =
        Except.ok ob ∧
      calculateEngineSystem ⟨configKey cid, v, .power, d, drag, copt, yr, h⟩ =
        Except.ok op ∧
      calculateEngineSystem ⟨configKey cid, v, .reliability, d, drag, copt, yr, h⟩ =
        Except.ok orl ∧
      calculateEngineSystem ⟨configKey cid, v, .efficiency, d, drag, copt, yr, h⟩ =
        Except.ok oe ∧
      ob.maxPower < op.maxPower ∧
      ob.mtbf < orl.mtbf ∧
      oe.fuelConsumptionAtFullPower ≤ ob.fuelConsumptionAtFullPower := by
  have hd : 0 < d := lt_of_lt_of_le (hull_dispMin_pos h) hlo
  have hP : 0 < specPowerHP d v (hullTypeProperties h).admiraltyCoefficient
      (specPlaningFactor d) :=
    specPowerHP_pos hd hv (hull_admiralty_pos h) (specPlaningFactor_pos d)
  refine ⟨_, _, _, _,
    calculateEngineSystem_ok _ (CONFIGURATIONS cid) (lookup_configKey cid) hlo hhi,
    calculateEngineSystem_ok _ (CONFIGURATIONS cid) (lookup_configKey cid) hlo hhi,
    calculateEngineSystem_ok _ (CONFIGURATIONS cid) (lookup_configKey cid) hlo hhi,
    calculateEngineSystem_ok _ (CONFIGURATIONS cid) (lookup_configKey cid) hlo hhi,
    ?_, ?_, ?_⟩
  · rw [out_maxPower, out_maxPower]
    have e1 : priorityPowerFactor .balanced = 1 := rfl
    have e2 : priorityPowerFactor .power = 1.05 := rfl
    rw [e1, e2]
    nlinarith [hP]
  · rw [out_mtbf, out_mtbf]
    exact mtbf_balanced_lt_reliability cid
  · rw [out_fuelFull, out_fuelFull]
    have e1 : priorityPowerFactor .balanced = 1 := rfl
    have e2 : priorityPowerFactor .efficiency = 0.98 := rfl
    have e3 : priorityFuelMultiplier .balanced = 1.0 := rfl
    have e4 : priorityFuelMultiplier .efficiency = 0.85 := rfl
    rw [e1, e2, e3, e4]
    unfold calculateFuelConsumption
    apply roundTo4_mono
    unfold calculateFuelConsumptionRaw baseFullPowerConsumption
    rw [rpow_one_setting]
    have hfef := fuelEfficiencyFactor_pos cid
    nlinarith [mul_pos hP hfef]

/-- Witness for the amended C5: DIESEL frigate, 5000 t, 30 kn. -/
theorem C5_priority_effects_amended_witness :
    ∃ ob op orl oe,
      calculateEngineSystem ⟨configKey .DIESEL, 30, .balanced, 5000, 0.1, none, none,
        .frigate⟩ = Except.ok ob ∧
      calculateEngineSystem ⟨configKey .DIESEL, 30, .power, 5000, 0.1, none, none,
        .frigate⟩ = Except.ok op ∧
      calculateEngineSystem ⟨configKey .DIESEL, 30, .reliability, 5000, 0.1, none, none,
        .frigate⟩ = Except.ok orl ∧
      calculateEngineSystem ⟨configKey .DIESEL, 30, .efficiency, 5000, 0.1, none, none,
        .frigate⟩ = Except.ok oe ∧
      ob.maxPower < op.maxPower ∧
      ob.mtbf < orl.mtbf ∧
      oe.fuelConsumptionAtFullPower ≤ ob.fuelConsumptionAtFullPower :=
  C5_priority_effects_amended .DIESEL .frigate 30 0.1 none none 5000
    (by norm_num [hullTypeProperties]) (by norm_num [hullTypeProperties]) (by norm_num)

/-- Counterexample to C5 as stated: for the valid input DIESEL / corvette /
500 t / 1 kn, the balanced and efficiency variants both report a
fuelConsumptionAtFullPower of exactly 0.0002 t/h after the 4-decimal
rounding, so switching to efficiency does NOT strictly decrease the output
field. -/
theorem C5_priority_effects_counterexample :
    (500 : ℝ) ≤ 500 ∧ (500 : ℝ) ≤ 2000 ∧ (0 : ℝ) < 1 ∧
    ∃ ob oe,
      calculateEngineSystem ⟨"DIESEL", 1, .balanced, 500, 0.1, none, none, .corvette⟩ =
        Except.ok ob ∧
      calculateEngineSystem ⟨"DIESEL", 1, .efficiency, 500, 0.1, none, none, .corvette⟩ =
        Except.ok oe ∧
      ob.fuelConsumptionAtFullPower = 0.0002 ∧
      oe.fuelConsumptionAtFullPower = 0.0002 := by
  have hXlo : (62.99 : ℝ) < (500 : ℝ) ^ ((2 : ℝ) / 3) :=
    lt_rpow23_of _ _ (by norm_num) (by norm_num) (by norm_num)
  have hXhi : (500 : ℝ) ^ ((2 : ℝ) / 3) < 63 :=
    rpow23_lt_of _ _ (by norm_num) (by norm_num) (by norm_num)
  have e0 : specPlaningFactor 500 = 0.82 := by unfold specPlaningFactor; norm_num
  refine ⟨by norm_num, by norm_num, by norm_num, _, _,
    calculateEngineSystem_ok _ (CONFIGURATIONS .DIESEL) (lookup_configKey .DIESEL)
      (by norm_num [hullTypeProperties]) (by norm_num [hullTypeProperties]),
    calculateEngineSystem_ok _ (CONFIGURATIONS .DIESEL) (lookup_configKey .DIESEL)
      (by norm_num [hullTypeProperties]) (by norm_num [hullTypeProperties]),
    ?_, ?_⟩
  · rw [out_fuelFull]
    unfold calculateFuelConsumption
    have : roundTo4 (calculateFuelConsumptionRaw
        (specPowerHP 500 1 (hullTypeProperties HullType.corvette).admiraltyCoefficient
          (specPlaningFactor 500) * priorityPowerFactor .balanced)
        (CONFIGURATIONS .DIESEL).fuelEfficiencyFactor 1.0
        (priorityFuelMultiplier .balanced)) = ((2 : ℤ) : ℝ) / 10000 := by
      apply roundTo4_eq_num 2
      · unfold calculateFuelConsumptionRaw specPowerHP baseFullPowerConsumption
        rw [e0, rpow_one_setting]
        have e1 : priorityPowerFactor .balanced = 1 := rfl
        have e2 : priorityFuelMultiplier .balanced = 1.0 := rfl
        have e3 : (CONFIGURATIONS ConfigurationId.DIESEL).fuelEfficiencyFactor = 0.75 := rfl
        have e4 : (hullTypeProperties HullType.corvette).admiraltyCoefficient = 180 := rfl
        rw [e1, e2, e3, e4]
        ring_nf
        ring_nf at hXlo hXhi
        push_cast
        linarith
      · unfold calculateFuelConsumptionRaw specPowerHP baseFullPowerConsumption
        rw [e0, rpow_one_setting]
        have e1 : priorityPowerFactor .balanced = 1 := rfl
        have e2 : priorityFuelMultiplier .balanced = 1.0 := rfl
        have e3 : (CONFIGURATIONS ConfigurationId.DIESEL).fuelEfficiencyFactor = 0.75 := rfl
        have e4 : (hullTypeProperties HullType.corvette).admiraltyCoefficient = 180 := rfl
        rw [e1, e2, e3, e4]
        ring_nf
        ring_nf at hXlo hXhi
        push_cast
        linarith
    rw [this]
    norm_num
  · rw [out_fuelFull]
    unfold calculateFuelConsumption
    have : roundTo4 (calculateFuelConsumptionRaw
        (specPowerHP 500 1 (hullTypeProperties HullType.corvette).admiraltyCoefficient
          (specPlaningFactor 500) * priorityPowerFactor .efficiency)
        (CONFIGURATIONS .DIESEL).fuelEfficiencyFactor 1.0
        (priorityFuelMultiplier .efficiency)) = ((2 : ℤ) : ℝ) / 10000 := by
      apply roundTo4_eq_num 2
      · unfold calculateFuelConsumptionRaw specPowerHP baseFullPowerConsumption
        rw [e0, rpow_one_setting]
        have e1 : priorityPowerFactor .efficiency = 0.98 := rfl
        have e2 : priorityFuelMultiplier .efficiency = 0.85 := rfl
        have e3 : (CONFIGURATIONS ConfigurationId.DIESEL).fuelEfficiencyFactor = 0.75 := rfl
        have e4 : (hullTypeProperties HullType.corvette).admiraltyCoefficient = 180 := rfl
        rw [e1, e2, e3, e4]
        ring_nf
        ring_nf at hXlo hXhi
        push_cast
        linarith
      · unfold calculateFuelConsumptionRaw specPowerHP baseFullPowerConsumption
        rw [e0, rpow_one_setting]
        have e1 : priorityPowerFactor .efficiency = 0.98 := rfl
        have e2 : priorityFuelMultiplier .efficiency = 0.85 := rfl
        have e3 : (CONFIGURATIONS ConfigurationId.DIESEL).fuelEfficiencyFactor = 0.75 := rfl
        have e4 : (hullTypeProperties HullType.corvette).admiraltyCoefficient = 180 := rfl
        rw [e1, e2, e3, e4]
        ring_nf
        ring_nf at hXlo hXhi
        push_cast
        linarith
    rw [this]
    norm_num

-- ====================================================================
-- Claim C6: efficiency-priority weight exceeds power-priority weight
-- ====================================================================

/-- Claim C6: two calls that differ only in enginePriority (efficiency vs
power) on an otherwise identical valid input always satisfy
efficiencyResult.totalEngineWeight > powerResult.totalEngineWeight, even
though the power priority raises the provisioned power feeding the weight
formula. -/
theorem C6_weight_efficiency_gt_power (cid : ConfigurationId) (h : HullType)
    (v drag : ℝ) (copt : Option ℝ) (yr : Option ℕ) (d : ℝ)
    (hlo : (hullTypeProperties h).displacementRange.1 ≤ d)
    (hhi : d ≤ (hullTypeProperties h).displacementRange.2)
    (hv : 0 ≤ v) :
    ∃ oe op,
      calculateEngineSystem ⟨configKey cid, v, .efficiency, d, drag, copt, yr, h⟩ =
        Except.ok oe ∧
      calculateEngineSystem ⟨configKey cid, v, .power, d, drag, copt, yr, h⟩ =
        Except.ok op ∧
      op.totalEngineWeight < oe.totalEngineWeight := by
  have hd : 0 < d := lt_of_lt_of_le (hull_dispMin_pos h) hlo
  have hP0 : 0 ≤ specPowerHP d v (hullTypeProperties h).admiraltyCoefficient
      (specPlaningFactor d) :=
    specPowerHP_nonneg hd.le hv (hull_admiralty_pos h).le (specPlaningFactor_pos d).le
  refine ⟨_, _,
    calculateEngineSystem_ok _ (CONFIGURATIONS cid) (lookup_configKey cid) hlo hhi,
    calculateEngineSystem_ok _ (CONFIGURATIONS cid) (lookup_configKey cid) hlo hhi,
    ?_⟩
  rw [out_totalEngineWeight, out_totalEngineWeight]
  have e1 : priorityPowerFactor .efficiency = 0.98 := rfl
  have e2 : priorityPowerFactor .power = 1.05 := rfl
  have e3 : (getPriorityAdjustment .efficiency).weight = 0.05 := rfl
  have e4 : (getPriorityAdjustment .power).weight = -0.1 := rfl
  rw [e1, e2, e3, e4]
  have hwm := weightMultiplier_pos cid
  nlinarith [mul_pos hwm hd, mul_nonneg hwm.le hP0]

/-- Witness for C6: DIESEL frigate, 5000 t, 30 kn. -/
theorem C6_weight_efficiency_gt_power_witness :
    ∃ oe op,
      calculateEngineSystem ⟨configKey .DIESEL, 30, .efficiency, 5000, 0.1, none, none,
        .frigate⟩ = Except.ok oe ∧
      calculateEngineSystem ⟨configKey .DIESEL, 30, .power, 5000, 0.1, none, none,
        .frigate⟩ = Except.ok op ∧
      op.totalEngineWeight < oe.totalEngineWeight :=
  C6_weight_efficiency_gt_power .DIESEL .frigate 30 0.1 none none 5000
    (by norm_num [hullTypeProperties]) (by norm_num [hullTypeProperties]) (by norm_num)

-- ====================================================================
-- Claim C7: cruise fuel consumption vs full-power fuel consumption
-- ====================================================================

lemma out_fuelCruise_custom_nonpos (ct : String) (v : ℝ) (prio : EnginePriority)
    (d drag c : ℝ) (yr : Option ℕ) (h : HullType) (cfg : PropulsionConfig) (p : ℝ)
    (hc : ¬ 0 < c) :
    (engineSystemOutputOf ⟨ct, v, prio, d, drag, some c, yr, h⟩ cfg
        p).fuelConsumptionAtCruise =
      calculateFuelConsumption (p * priorityPowerFactor prio) cfg.fuelEfficiencyFactor 0.65
        (priorityFuelMultiplier prio) := by
  cases prio <;>
    simp [engineSystemOutputOf, priorityPowerFactor, priorityFuelMultiplier, hc]

/-- Claim C7 (amended): for every valid input whose cruising speed is below
the top speed, fuelConsumptionAtCruise ≤ fuelConsumptionAtFullPower in both
the custom-cruise-speed branch and the default 65%-power branch; the
underlying (pre-rounding) consumptions satisfy the strict inequality, but
the 4-decimal rounding of the two output fields can collapse it to
equality, so the rounded outputs are only ≤ (see the counterexample). -/
theorem C7_cruise_fuel_le_full_amended (cid : ConfigurationId)
    (prio : EnginePriority) (h : HullType) (v drag d : ℝ) (copt : Option ℝ)
    (yr : Option ℕ)
    (hlo : (hullTypeProperties h).displacementRange.1 ≤ d)
    (hhi : d ≤ (hullTypeProperties h).displacementRange.2)
    (hv : 0 < v)
    (hcv : ∀ c : ℝ, copt = some c → c < v) :
    ∃ o,
      calculateEngineSystem ⟨configKey cid, v, prio, d, drag, copt, yr, h⟩ =
        Except.ok o ∧
      o.fuelConsumptionAtCruise ≤ o.fuelConsumptionAtFullPower := by
  have hd : 0 < d := lt_of_lt_of_le (hull_dispMin_pos h) hlo
  have hP0 : 0 ≤ specPowerHP d v (hullTypeProperties h).admiraltyCoefficient
      (specPlaningFactor d) :=
    specPowerHP_nonneg hd.le hv.le (hull_admiralty_pos h).le (specPlaningFactor_pos d).le
  have hfef := fuelEfficiencyFactor_pos cid
  have hmult := priorityFuelMultiplier_pos prio
  have hppf := priorityPowerFactor_pos prio
  have hPppf : 0 ≤ specPowerHP d v (hullTypeProperties h).admiraltyCoefficient
      (specPlaningFactor d) * priorityPowerFactor prio := mul_nonneg hP0 hppf.le
  have h65 : ((0.65 : ℝ)) ^ ((1.25 : ℝ)) ≤ 1 :=
    Real.rpow_le_one (by norm_num) (by norm_num) (by norm_num)
  have h65n : 0 ≤ ((0.65 : ℝ)) ^ ((1.25 : ℝ)) := Real.rpow_nonneg (by norm_num) _
  refine ⟨_,
    calculateEngineSystem_ok _ (CONFIGURATIONS cid) (lookup_configKey cid) hlo hhi, ?_⟩
  match copt, hcv with
  | none, _ =>
    rw [out_fuelCruise_default, out_fuelFull]
    unfold calculateFuelConsumption
    apply roundTo4_mono
    unfold calculateFuelConsumptionRaw baseFullPowerConsumption
    rw [rpow_one_setting]
    nlinarith [mul_nonneg (mul_nonneg hPppf hfef.le) hmult.le, h65, h65n]
  | some c, hcv =>
    have hcv' : c < v := hcv c rfl
    by_cases hc : 0 < c
    · rw [out_fuelCruise_custom _ _ _ _ _ _ _ _ _ _ hc, out_fuelFull]
      unfold calculateFuelConsumption
      apply roundTo4_mono
      unfold calculateFuelConsumptionRaw baseFullPowerConsumption
      rw [rpow_one_setting]
      have hr0 : 0 ≤ c / v := div_nonneg hc.le hv.le
      have hr1 : c / v < 1 := (div_lt_one hv).mpr hcv'
      have hratio1 : (c / v) ^ 3 ≤ 1 := pow_le_one₀ hr0 hr1.le
      have hrat0 : 0 ≤ (c / v) ^ 3 := pow_nonneg hr0 3
      nlinarith [mul_nonneg (mul_nonneg hPppf hfef.le) hmult.le, hratio1, hrat0]
    · rw [out_fuelCruise_custom_nonpos _ _ _ _ _ _ _ _ _ _ hc, out_fuelFull]
      unfold calculateFuelConsumption
      apply roundTo4_mono
      unfold calculateFuelConsumptionRaw baseFullPowerConsumption
      rw [rpow_one_setting]
      nlinarith [mul_nonneg (mul_nonneg hPppf hfef.le) hmult.le, h65, h65n]

/-- Witness for the amended C7: DIESEL frigate, 5000 t, top speed 30 kn,
custom cruise speed 18 kn. -/
theorem C7_cruise_fuel_le_full_amended_witness :
    ∃ o,
      calculateEngineSystem ⟨configKey .DIESEL, 30, .balanced, 5000, 0.1, some 18, none,
        .frigate⟩ = Except.ok o ∧
      o.fuelConsumptionAtCruise ≤ o.fuelConsumptionAtFullPower := by
  refine C7_cruise_fuel_le_full_amended .DIESEL .balanced .frigate 30 0.1 5000 (some 18)
    none (by norm_num [hullTypeProperties]) (by norm_num [hullTypeProperties])
    (by norm_num) ?_
  intro c hc
  have h18 := Option.some.inj hc
  subst h18
  norm_num

/-- Counterexample to C7 as stated: for DIESEL / corvette / 500 t with top
speed 0.5 kn and custom cruise speed 0.25 kn (cruise speed > 0 and less than
top speed), both consumption outputs round to 0.0000, so after the 4-decimal
rounding fuelConsumptionAtCruise is NOT strictly less than
fuelConsumptionAtFullPower. -/
theorem C7_cruise_fuel_counterexample :
    (0 : ℝ) < 0.25 ∧ (0.25 : ℝ) < 0.5 ∧
    ∃ o,
      calculateEngineSystem ⟨"DIESEL", 0.5, .balanced, 500, 0.1, some 0.25, none,
        .corvette⟩ = Except.ok o ∧
      o.fuelConsumptionAtCruise = o.fuelConsumptionAtFullPower := by
  have hXlo : (62.99 : ℝ) < (500 : ℝ) ^ ((2 : ℝ) / 3) :=
    lt_rpow23_of _ _ (by norm_num) (by norm_num) (by norm_num)
  have hXhi : (500 : ℝ) ^ ((2 : ℝ) / 3) < 63 :=
    rpow23_lt_of _ _ (by norm_num) (by norm_num) (by norm_num)
  have e0 : specPlaningFactor 500 = 0.82 := by unfold specPlaningFactor; norm_num
  refine ⟨by norm_num, by norm_num, _,
    calculateEngineSystem_ok _ (CONFIGURATIONS .DIESEL) (lookup_configKey .DIESEL)
      (by norm_num [hullTypeProperties]) (by norm_num [hullTypeProperties]), ?_⟩
  rw [out_fuelCruise_custom _ _ _ _ _ _ _ _ _ _ (by norm_num : (0 : ℝ) < 0.25),
    out_fuelFull]
  have hcru : calculateFuelConsumption
      (specPowerHP 500 0.5 (hullTypeProperties HullType.corvette).admiraltyCoefficient
          (specPlaningFactor 500) * priorityPowerFactor .balanced * ((0.25 : ℝ) / 0.5) ^ 3)
      (CONFIGURATIONS .DIESEL).fuelEfficiencyFactor 1.0
      (priorityFuelMultiplier .balanced) = ((0 : ℤ) : ℝ) / 10000 := by
    unfold calculateFuelConsumption
    apply roundTo4_eq_num 0
    · unfold calculateFuelConsumptionRaw specPowerHP baseFullPowerConsumption
      rw [e0, rpow_one_setting]
      have e1 : priorityPowerFactor .balanced = 1 := rfl
      have e2 : priorityFuelMultiplier .balanced = 1.0 := rfl
      have e3 : (CONFIGURATIONS ConfigurationId.DIESEL).fuelEfficiencyFactor = 0.75 := rfl
      have e4 : (hullTypeProperties HullType.corvette).admiraltyCoefficient = 180 := rfl
      rw [e1, e2, e3, e4]
      ring_nf
      ring_nf at hXlo hXhi
      push_cast
      linarith
    · unfold calculateFuelConsumptionRaw specPowerHP baseFullPowerConsumption
      rw [e0, rpow_one_setting]
      have e1 : priorityPowerFactor .balanced = 1 := rfl
      have e2 : priorityFuelMultiplier .balanced = 1.0 := rfl
      have e3 : (CONFIGURATIONS ConfigurationId.DIESEL).fuelEfficiencyFactor = 0.75 := rfl
      have e4 : (hullTypeProperties HullType.corvette).admiraltyCoefficient = 180 := rfl
      rw [e1, e2, e3, e4]
      ring_nf
      ring_nf at hXlo hXhi
      push_cast
      linarith
  have hful : calculateFuelConsumption
      (specPowerHP 500 0.5 (hullTypeProperties HullType.corvette).admiraltyCoefficient
          (specPlaningFactor 500) * priorityPowerFactor .balanced)
      (CONFIGURATIONS .DIESEL).fuelEfficiencyFactor 1.0
      (priorityFuelMultiplier .balanced) = ((0 : ℤ) : ℝ) / 10000 := by
    unfold calculateFuelConsumption
    apply roundTo4_eq_num 0
    · unfold calculateFuelConsumptionRaw specPowerHP baseFullPowerConsumption
      rw [e0, rpow_one_setting]
      have e1 : priorityPowerFactor .balanced = 1 := rfl
      have e2 : priorityFuelMultiplier .balanced = 1.0 := rfl
      have e3 : (CONFIGURATIONS ConfigurationId.DIESEL).fuelEfficiencyFactor = 0.75 := rfl
      have e4 : (hullTypeProperties HullType.corvette).admiraltyCoefficient = 180 := rfl
      rw [e1, e2, e3, e4]
      ring_nf
      ring_nf at hXlo hXhi
      push_cast
      linarith
    · unfold calculateFuelConsumptionRaw specPowerHP baseFullPowerConsumption
      rw [e0, rpow_one_setting]
      have e1 : priorityPowerFactor .balanced = 1 := rfl
      have e2 : priorityFuelMultiplier .balanced = 1.0 := rfl
      have e3 : (CONFIGURATIONS ConfigurationId.DIESEL).fuelEfficiencyFactor = 0.75 := rfl
      have e4 : (hullTypeProperties HullType.corvette).admiraltyCoefficient = 180 := rfl
      rw [e1, e2, e3, e4]
      ring_nf
      ring_nf at hXlo hXhi
      push_cast
      linarith
  rw [hcru, hful]

-- ====================================================================
-- Claim C10: no cruise-vs-top speed validation
-- ====================================================================

/-- Claim C10: calculateEngineSystem performs no validation of
desiredCruisingSpeed against desiredTopSpeed: at DIESEL / frigate / 5000 t
with top speed 20 kn and desired cruising speed 30 kn no error is raised,
the supplied cruise speed is echoed verbatim (output cruisingSpeed 30 >
maxSpeed 20), and since the cruise power ratio (30/20)^3 exceeds 1 the
reported fuelConsumptionAtCruise exceeds fuelConsumptionAtFullPower. -/
theorem C10_no_cruise_speed_validation :
    ∃ o,
      calculateEngineSystem ⟨"DIESEL", 20, .balanced, 5000, 0.1, some 30, none,
        .frigate⟩ = Except.ok o ∧
      o.cruisingSpeed = 30 ∧ o.maxSpeed = 20 ∧ o.maxSpeed < o.cruisingSpeed ∧
      o.fuelConsumptionAtFullPower < o.fuelConsumptionAtCruise := by
  have hYlo : (292.3 : ℝ) < (5000 : ℝ) ^ ((2 : ℝ) / 3) :=
    lt_rpow23_of _ _ (by norm_num) (by norm_num) (by norm_num)
  have hYhi : (5000 : ℝ) ^ ((2 : ℝ) / 3) < 292.5 :=
    rpow23_lt_of _ _ (by norm_num) (by norm_num) (by norm_num)
  have e0 : specPlaningFactor 5000 = 1.0 := by unfold specPlaningFactor; norm_num
  refine ⟨_,
    calculateEngineSystem_ok _ (CONFIGURATIONS .DIESEL) (lookup_configKey .DIESEL)
      (by norm_num [hullTypeProperties]) (by norm_num [hullTypeProperties]),
    ?_, ?_, ?_, ?_⟩
  · rw [out_cruisingSpeed]
    unfold calculateCruisingSpeed
    norm_num
  · rw [out_maxSpeed]
  · rw [out_maxSpeed, out_cruisingSpeed]
    unfold calculateCruisingSpeed
    norm_num
  · rw [out_fuelFull, out_fuelCruise_custom _ _ _ _ _ _ _ _ _ _ (by norm_num : (0 : ℝ) < 30)]
    unfold calculateFuelConsumption
    refine lt_of_le_of_lt (roundTo4_le _) (lt_of_le_of_lt ?_ (lt_roundTo4 _))
    unfold calculateFuelConsumptionRaw specPowerHP baseFullPowerConsumption
    rw [e0]
    simp only [rpow_one_setting]
    have e1 : priorityPowerFactor .balanced = 1 := rfl
    have e2 : priorityFuelMultiplier .balanced = 1.0 := rfl
    have e3 : (CONFIGURATIONS ConfigurationId.DIESEL).fuelEfficiencyFactor = 0.75 := rfl
    have e4 : (hullTypeProperties HullType.frigate).admiraltyCoefficient = 210 := rfl
    rw [e1, e2, e3, e4]
    ring_nf
    ring_nf at hYlo hYhi
    linarith

-- ====================================================================
-- Formula-calibration harness (test-1960s-formulas.ts and its dataset
-- 1960s-naval-vessels.ts, plus admiraltyDisplacementFactors.ts)
-- ====================================================================

inductive propulsionType where
  | steamTurbine
  | diesel
  | cogag
  | cosag
  | iep
  | codag
  | codog
  | codad
  | cogog
  | nuclear
deriving DecidableEq

inductive HullForm where
  | planing
  | displacement
deriving DecidableEq

structure VesselSpecification where
  name : String
  className : String
  designYear : ℕ
  dispStandard : ℝ
  dispFullLoad : Option ℝ
  speed : ℝ
  cruiseSpeed : Option ℝ
  maxPowerPerEngineGroup : ℝ
  knownMaxCruisePower : Option ℝ
  numberOfShafts : Option ℕ
  propulsion : propulsionType
  hullForm : HullForm
  vesselType : String

def potiVessel : VesselSpecification :=
  ⟨"Poti", "Poti-class", 1960, 508, some 589, 38, some 15, 19000, some 8000, some 2,
    .codag, .planing, "corvette"⟩

def vessels1960s : List VesselSpecification :=
  [potiVessel,
   ⟨"Grisha", "Grisha-class", 1966, 803, some 980, 34, some 15, 12667, some 20000,
     some 3, .codag, .planing, "corvette"⟩,
   ⟨"Niteroi", "Niteroi-class", 1972, 2700, some 3385, 30, some 22, 28000, some 17000,
     some 2, .codog, .displacement, "frigate"⟩,
   ⟨"HMS Whitby", "Whitby-class (Type 12)", 1953, 2150, some 2560, 30, some 16, 15000,
     some 3000, some 2, .steamTurbine, .displacement, "frigate"⟩,
   ⟨"HMS Leander", "Leander-class (Type 12I)", 1959, 2350, some 2860, 27, some 17,
     15000, none, some 2, .steamTurbine, .displacement, "frigate"⟩,
   ⟨"USS Brooke", "Brooke-class", 1962, 2640, some 3426, 27.2, some 17, 35000, none,
     some 1, .steamTurbine, .displacement, "frigate"⟩,
   ⟨"Razyashchiy", "Krivak-class (Project 1135)", 1968, 3300, some 3575, 32, some 19,
     27475, some 14950, some 2, .cogag, .displacement, "frigate"⟩,
   ⟨"Dinh Tien Hoang", "Gepard-class (Project 11661 E)", 2000, 2050, some 2500, 29,
     some 16, 15000, some 8000, some 2, .codog, .displacement, "frigate"⟩,
   ⟨"USS Knox", "Knox-class", 1966, 3385, some 4130, 27, some 20, 35000, none, some 1,
     .steamTurbine, .displacement, "frigate"⟩,
   ⟨"HMS Devonshire", "County-class", 1962, 5080, some 6200, 30, some 18, 30000,
     some 30000, some 2, .cosag, .displacement, "destroyer"⟩,
   ⟨"Komsomolets", "Kashin-class (Project 61)", 1962, 3400, some 4390, 38, some 18,
     48000, some 48000, some 2, .cogag, .displacement, "destroyer"⟩,
   ⟨"USS Charles F. Adams", "Charles F. Adams-class", 1960, 3277, some 4526, 33,
     some 20, 35000, none, some 2, .steamTurbine, .displacement, "destroyer"⟩,
   ⟨"Vladivostok", "Kresta I-class (Project 1134)", 1967, 6000, some 7500, 34, some 20,
     50000, none, some 2, .steamTurbine, .displacement, "cruiser"⟩,
   ⟨"USS Leahy", "Leahy-class", 1962, 7000, some 7800, 32, some 20, 42500, none,
     some 2, .steamTurbine, .displacement, "cruiser"⟩,
   ⟨"HMCS Iroquois", "Iroquois-class", 1972, 4500, some 5200, 29, some 20, 25000,
     some 12600, some 2, .cogog, .displacement, "destroyer"⟩,
   ⟨"Kortenaer", "Kortenaer-class", 1978, 3100, some 3690, 30, some 20, 25700,
     some 9800, some 2, .cogog, .displacement, "frigate"⟩,
   ⟨"USS Spruance", "Spruance-class", 1970, 7050, some 8040, 32.5, some 20, 20000,
     none, some 2, .cogag, .displacement, "destroyer"⟩,
   ⟨"USS Ticonderoga", "Ticonderoga-class", 1980, 9000, some 9600, 32.5, some 20,
     25000, none, some 2, .cogag, .displacement, "cruiser"⟩,
   ⟨"La Fayette", "La Fayette-class", 1990, 3200, some 3800, 25, some 15, 10500, none,
     some 2, .diesel, .displacement, "frigate"⟩,
   ⟨"Scirocco", "Maestrale-class", 1982, 2990, some 3040, 33, some 21, 18390, none,
     some 2, .codog, .displacement, "frigate"⟩]

-- admiraltyDisplacementFactors.ts

structure DisplacementFactor where
  minDisplacement : ℝ
  maxDisplacement : Option ℝ
  label : String
  expectedCoefficient : ℝ
  adjustmentFactor : ℝ

/-- maxDisplacement none encodes the source value Infinity. -/
def admiraltyDisplacementFactors : List DisplacementFactor :=
  [⟨0, some 600, "Corvette/Fast Attack", 22.1, 3.32⟩,
   ⟨600, some 2000, "Light Frigate", 60.0, 1.225⟩,
   ⟨2000, some 2500, "Medium Frigate", 75.5, 0.973⟩,
   ⟨2500, some 3500, "Large Frigate / Small Destroyer", 83.2, 0.884⟩,
   ⟨3500, some 4500, "Destroyer", 68.2, 1.078⟩,
   ⟨4500, none, "Large Destroyer / Cruiser", 74.2, 0.991⟩]

def factorMatches (displacement : ℝ) (factor : DisplacementFactor) : Bool :=
  decide (factor.minDisplacement ≤ displacement) &&
    match factor.maxDisplacement with
    | some m => decide (displacement ≤ m)
    | none => true

/-- Falls back to the last (largest) category, as the source loop does. -/
def getDisplacementFactor (displacement : ℝ) : DisplacementFactor :=
  match admiraltyDisplacementFactors.find? (factorMatches displacement) with
  | some factor => factor
  | none => admiraltyDisplacementFactors.getLastD ⟨0, none, "", 0, 1⟩

-- The formula implementations of test-1960s-formulas.ts

def calculateFormula1 (displacement speed hullDragCoefficient : ℝ) : ℝ :=
  let baseHPCoefficient : ℝ := 0.0035
  let hullDragFactor : ℝ := 1.0 + hullDragCoefficient * 8
  baseHPCoefficient * displacement ^ ((0.67 : ℝ)) * speed ^ 3 * hullDragFactor

def calculateFormula2 (displacement speed scaling : ℝ) : ℝ :=
  displacement ^ ((2 : ℝ) / 3) * speed ^ 3 / scaling

def calculateFormula2a (displacement speed scaling propulsionEfficiency : ℝ) : ℝ :=
  calculateFormula2 displacement speed scaling * propulsionEfficiency

def calculateFormula2b (displacement speed baseScaling : ℝ) : ℝ :=
  let displacementFactor := getDisplacementFactor displacement
  let adjustedScaling := baseScaling * displacementFactor.adjustmentFactor
  displacement ^ ((2 : ℝ) / 3) * speed ^ 3 / adjustedScaling

def calculateFormula3 (displacement speed : ℝ) : ℝ :=
  let scalingFactor : ℝ :=
    if displacement < 2000 then 500
    else if displacement < 5000 then 800
    else if displacement < 15000 then 1200
    else 2800
  displacement ^ ((2 : ℝ) / 3) * speed ^ 3 / scalingFactor

def calculateFormula4 (displacement speed baseScaling displacementExponent : ℝ) : ℝ :=
  let baseFormula := displacement ^ ((2 : ℝ) / 3) * speed ^ 3
  let effectiveScaling := baseScaling * displacement ^ displacementExponent
  baseFormula / effectiveScaling

def calculateFormula6 (displacement speed scaling : ℝ) (hullForm : HullForm)
    (propulsionEfficiency : ℝ) : ℝ :=
  let baseFormula := displacement ^ ((2 : ℝ) / 3) * speed ^ 3
  let resistanceFactor : ℝ :=
    if hullForm = .planing ∧ displacement < 1000 then 0.82 else 1.0
  baseFormula / scaling * resistanceFactor * propulsionEfficiency

structure FormulaSpec where
  name : String
  calculate : VesselSpecification → ℝ

def formulas : List FormulaSpec :=
  [⟨"Formula 1: Empirical",
    fun v => calculateFormula1 v.dispStandard v.speed 0.1⟩,
   ⟨"Formula 2: Admiralty",
    fun v => calculateFormula2 v.dispStandard v.speed 105⟩,
   ⟨"Formula 2b: Admiralty + Displacement Scaling",
    fun v => calculateFormula2b v.dispStandard v.speed 105⟩,
   ⟨"Formula 2a: Admiralty + Propulsion Efficiency",
    fun v => calculateFormula2a v.dispStandard v.speed 140
      (if v.propulsion = .cogag then 0.93 else 1.0)⟩,
   ⟨"Formula 3: Discrete Ship Type Categories",
    fun v => calculateFormula3 v.dispStandard v.speed⟩,
   ⟨"Formula 4: Continuous Displacement Scaling",
    fun v => calculateFormula4 v.dispStandard v.speed 500 (-0.1)⟩,
   ⟨"Formula 6: Hydrodynamic-Aware",
    fun v => calculateFormula6 v.dispStandard v.speed 130 v.hullForm
      (if v.propulsion = .cogag then 0.93 else 1.0)⟩]

/-- `vessel.maxPowerPerEngineGroup * (vessel.numberOfShafts || 1)`: the JS
|| falls back to 1 when the shaft count is absent or zero. -/
def shaftsOrOne (v : VesselSpecification) : ℕ :=
  match v.numberOfShafts with
  | some n => if n = 0 then 1 else n
  | none => 1

def actualPower (v : VesselSpecification) : ℝ :=
  v.maxPowerPerEngineGroup * (shaftsOrOne v : ℝ)

structure TestResults where
  name : String
  errors : List ℝ

/-- The per-formula loop: each vessel contributes the absolute value of
(calculated − actual) / actual × 100. -/
def results1960s : List TestResults :=
  formulas.map (fun formula =>
    ⟨formula.name, vessels1960s.map (fun vessel =>
      |(formula.calculate vessel - actualPower vessel) / actualPower vessel * 100|)⟩)

def avgAbsError (errors : List ℝ) : ℝ :=
  errors.foldl (· + ·) 0 / (errors.length : ℝ)

def minAbsError (errors : List ℝ) : ℝ := errors.foldl min (errors.headD 0)

def maxAbsError (errors : List ℝ) : ℝ := errors.foldl max (errors.headD 0)

structure RankingResult where
  name : String
  avgError : ℝ

/-- Ascending comparison on mean absolute error — the JS comparator
(a, b) => a.avgError - b.avgError. -/
def rankLE (a b : RankingResult) : Prop := a.avgError ≤ b.avgError

instance : DecidableRel rankLE := fun a b => Real.decidableLE a.avgError b.avgError

instance : IsTotal RankingResult rankLE := ⟨fun a b => le_total a.avgError b.avgError⟩

instance : IsTrans RankingResult rankLE := ⟨fun _ _ _ h1 h2 => le_trans h1 h2⟩

def rankings1960s : List RankingResult :=
  List.insertionSort rankLE
    (results1960s.map (fun r => ⟨r.name, avgAbsError r.errors⟩))

-- fold lemmas for the min/max aggregates

lemma foldl_min_le_init (l : List ℝ) : ∀ a : ℝ, l.foldl min a ≤ a := by
  induction l with
  | nil => intro a; simp
  | cons x xs ih =>
    intro a
    exact le_trans (ih (min a x)) (min_le_left a x)

lemma foldl_min_le_mem (l : List ℝ) : ∀ a e : ℝ, e ∈ l → l.foldl min a ≤ e := by
  induction l with
  | nil =>
    intro a e he
    simp at he
  | cons x xs ih =>
    intro a e he
    rcases List.mem_cons.mp he with rfl | hmem
    · exact le_trans (foldl_min_le_init xs (min a e)) (min_le_right a e)
    · exact ih (min a x) e hmem

lemma le_foldl_max_init (l : List ℝ) : ∀ a : ℝ, a ≤ l.foldl max a := by
  induction l with
  | nil => intro a; simp
  | cons x xs ih =>
    intro a
    exact le_trans (le_max_left a x) (ih (max a x))

lemma le_foldl_max_mem (l : List ℝ) : ∀ a e : ℝ, e ∈ l → e ≤ l.foldl max a := by
  induction l with
  | nil =>
    intro a e he
    simp at he
  | cons x xs ih =>
    intro a e he
    rcases List.mem_cons.mp he with rfl | hmem
    · exact le_trans (le_max_right a e) (le_foldl_max_init xs (max a e))
    · exact ih (max a x) e hmem

/-- Claim C9: for the fixed 20-vessel dataset, every vessel's actual power
is maxPowerPerEngineGroup * numberOfShafts (all shaft counts are present and
positive, so the || 1 fallback never fires); each formula's stored errors
are the absolute percentage errors |(predicted − actual)/actual × 100|; the
min/max aggregates bound every stored error; and the final rankings list is
a permutation of the per-formula mean absolute errors sorted in ascending
order. -/
theorem C9_calibration_harness :
    (∀ v ∈ vessels1960s, ∃ n : ℕ, v.numberOfShafts = some n ∧ 0 < n ∧
      actualPower v = v.maxPowerPerEngineGroup * (n : ℝ)) ∧
    (∀ fs ∈ formulas,
      (⟨fs.name, vessels1960s.map (fun v =>
        |(fs.calculate v - actualPower v) / actualPower v * 100|)⟩ : TestResults) ∈
        results1960s) ∧
    (∀ r ∈ results1960s, ∀ e ∈ r.errors,
      minAbsError r.errors ≤ e ∧ e ≤ maxAbsError r.errors) ∧
    List.Sorted rankLE rankings1960s ∧
    rankings1960s.Perm (results1960s.map (fun r => ⟨r.name, avgAbsError r.errors⟩)) ∧
    (∀ r ∈ rankings1960s, ∃ tr, tr ∈ results1960s ∧ r.name = tr.name ∧
      r.avgError = avgAbsError tr.errors) := by
  refine ⟨?_, ?_, ?_, ?_, ?_, ?_⟩
  · intro v hv
    fin_cases hv <;>
      first
        | exact ⟨2, rfl, by norm_num, by norm_num [actualPower, shaftsOrOne, potiVessel]⟩
        | exact ⟨3, rfl, by norm_num, by norm_num [actualPower, shaftsOrOne, potiVessel]⟩
        | exact ⟨1, rfl, by norm_num, by norm_num [actualPower, shaftsOrOne, potiVessel]⟩
  · intro fs hfs
    exact List.mem_map.mpr ⟨fs, hfs, rfl⟩
  · intro r _ e he
    exact ⟨foldl_min_le_mem r.errors (r.errors.headD 0) e he,
      le_foldl_max_mem r.errors (r.errors.headD 0) e he⟩
  · exact List.sorted_insertionSort rankLE _
  · exact List.perm_insertionSort rankLE _
  · intro r hr
    have hmem : r ∈ results1960s.map
        (fun tr => (⟨tr.name, avgAbsError tr.errors⟩ : RankingResult)) :=
      (List.perm_insertionSort rankLE _).mem_iff.mp hr
    obtain ⟨tr, htr, heq⟩ := List.mem_map.mp hmem
    exact ⟨tr, htr, by rw [← heq], by rw [← heq]⟩

/-- Witness for C9 at the Poti record: its actual power is
maxPowerPerEngineGroup times its 2 shafts. -/
theorem C9_calibration_harness_witness :
    ∃ n : ℕ, potiVessel.numberOfShafts = some n ∧ 0 < n ∧
      actualPower potiVessel = potiVessel.maxPowerPerEngineGroup * (n : ℝ) :=
  C9_calibration_harness.1 potiVessel (List.mem_cons_self _ _)
